import Mathlib

/-!
Verification of the deterministic core of `tech_support_agent.py`
(a customer-support triage helper).

The embedding below models, directly from the source:
  * `SupportQuery` (with the class-level default-timestamp semantics),
  * `KnowledgeBase` (Python dicts become insertion-ordered association
    lists),
  * the tool `search_knowledge_base` (knowledge-base lookup),
  * the tool `check_severity` (severity scoring heuristic),
  * the two identical knowledge-base literals (module scope and inside
    `handle_support_query`).

Python's substring test `a in b` is modelled by `containsSubstr b a`,
`str.lower` by `strLower`, `dict.get(k, d)` by `dictGet`, and the
f-string `f"{n}h"` by `toString n ++ "h"`.
-/

namespace TechSupport

/-- Python `str.lower()`: lower-case every character. (`Char.toLower`
covers the ASCII range, which is all the program's data uses.) -/
def strLower (s : String) : String :=
  ⟨s.data.map Char.toLower⟩

/-- Python `needle in haystack` on `List Char`: `needle` is a prefix of
some suffix of the haystack (the empty needle is in every haystack). -/
def substrAux (needle : List Char) : List Char → Bool
  | [] => needle.isEmpty
  | c :: rest => needle.isPrefixOf (c :: rest) || substrAux needle rest

/-- Python `needle in haystack` on strings. -/
def containsSubstr (haystack needle : String) : Bool :=
  substrAux needle.toList haystack.toList

/-- Python `dict.get(key, default)` on an association list with `Nat`
values (insertion order preserved, as in a Python dict literal). -/
def dictGet : List (String × Nat) → String → Nat → Nat
  | [], _, d => d
  | (k', v) :: rest, k, d => if k = k' then v else dictGet rest k d

/-- An instant of time; stands in for `datetime.datetime`. -/
structure Instant where
  t : Nat
deriving DecidableEq, Repr

/-- `class SupportQuery(BaseModel)` from the source. -/
structure SupportQuery where
  issue : String
  severity : String
  product : String
  user_id : String
  timestamp : Instant
deriving DecidableEq, Repr

/-- The default expression `datetime.datetime.now()` attached to the
`timestamp` field of `SupportQuery` is evaluated exactly once, when the
class body runs at module import; the resulting value is stored on the
class and reused by every construction that omits `timestamp`. This
definition captures that stored value as a function of the module-load
instant. -/
def classDefaultTimestamp (moduleLoadTime : Instant) : Instant :=
  moduleLoadTime

/-- Constructing a `SupportQuery` without an explicit `timestamp`
argument: the field receives the class-level stored default, regardless
of the instant at which the constructor runs (last argument). -/
def SupportQuery.mkDefault (moduleLoadTime : Instant)
    (issue severity product user_id : String)
    (_constructionTime : Instant) : SupportQuery :=
  { issue := issue, severity := severity, product := product,
    user_id := user_id,
    timestamp := classDefaultTimestamp moduleLoadTime }

/-- `class KnowledgeBase(BaseModel)` from the source. Python dicts are
modelled as insertion-ordered association lists. -/
structure KnowledgeBase where
  product : String
  known_issues : List (String × String)
  solutions : List (String × List String)
deriving DecidableEq, Repr

/-- The knowledge-base literal constructed at module scope (`kb = ...`). -/
def kb : KnowledgeBase :=
  { product := "CloudDB",
    known_issues := [
      ("Can't connect to database", "Check connection string and firewall rules"),
      ("Database crash", "Verify system resources and restart service"),
      ("Slow queries", "Analyze query performance and optimize indexes")],
    solutions := [
      ("connection", ["Check credentials", "Verify network access", "Test port availability"]),
      ("performance", ["Run diagnostics", "Check resource usage", "Optimize queries"]),
      ("crash", ["Collect logs", "Check error messages", "Restart service"])] }

/-- The knowledge-base literal constructed inside `handle_support_query`
(the local `kb = KnowledgeBase(...)`). -/
def handler_kb : KnowledgeBase :=
  { product := "CloudDB",
    known_issues := [
      ("Can't connect to database", "Check connection string and firewall rules"),
      ("Database crash", "Verify system resources and restart service"),
      ("Slow queries", "Analyze query performance and optimize indexes")],
    solutions := [
      ("connection", ["Check credentials", "Verify network access", "Test port availability"]),
      ("performance", ["Run diagnostics", "Check resource usage", "Optimize queries"]),
      ("crash", ["Collect logs", "Check error messages", "Restart service"])] }

/-- The tool `search_knowledge_base(ctx, issue, product)`. The error case
returns the one-entry dict `{"error": "Product not found in knowledge
base"}`; otherwise each `(known_issue, solution)` pair is kept iff
`issue.lower() in known_issue.lower()`. -/
def search_knowledge_base (kb : KnowledgeBase) (issue product : String) :
    List (String × String) :=
  if product ≠ kb.product then
    [("error", "Product not found in knowledge base")]
  else
    kb.known_issues.filter
      (fun p => containsSubstr (strLower p.1) (strLower issue))

/-- The dict returned by `check_severity`. -/
structure CheckSeverityResult where
  priority_level : Nat
  needs_escalation : Bool
  estimated_time : String
deriving DecidableEq, Repr

/-- The `severity_levels` table inside `check_severity`. -/
def severity_levels : List (String × Nat) :=
  [("low", 1), ("medium", 2), ("high", 3), ("critical", 4)]

/-- The `critical_keywords` list inside `check_severity`. -/
def critical_keywords : List String :=
  ["crash", "data loss", "security", "breach"]

/-- `any(keyword in issue.lower() for keyword in critical_keywords)`. -/
def hasCriticalKeyword (issue : String) : Bool :=
  critical_keywords.any (fun keyword => containsSubstr (strLower issue) keyword)

/-- The tool `check_severity(ctx, issue, severity)`. -/
def check_severity (issue severity : String) : CheckSeverityResult :=
  let base_priority := dictGet severity_levels (strLower severity) 1
  let final_priority :=
    if hasCriticalKeyword issue then max base_priority 3 else base_priority
  { priority_level := final_priority,
    needs_escalation := decide (final_priority ≥ 3),
    estimated_time := toString (final_priority * 2) ++ "h" }

/-! ## Helper lemmas -/

/-- Unfolding lemma: the `priority_level` field of `check_severity`. -/
theorem check_severity_priority_def (issue severity : String) :
    (check_severity issue severity).priority_level =
      if hasCriticalKeyword issue then
        max (dictGet severity_levels (strLower severity) 1) 3
      else dictGet severity_levels (strLower severity) 1 := rfl

/-- Unfolding lemma: the `needs_escalation` field of `check_severity`. -/
theorem check_severity_escalation_def (issue severity : String) :
    (check_severity issue severity).needs_escalation =
      decide (3 ≤ (check_severity issue severity).priority_level) := rfl

/-- The severity table only produces values between 1 and 4 (any lookup
falls back to the default 1 when the key is absent). -/
theorem dictGet_severity_cases (s : String) :
    dictGet severity_levels s 1 = 1 ∨ dictGet severity_levels s 1 = 2 ∨
    dictGet severity_levels s 1 = 3 ∨ dictGet severity_levels s 1 = 4 := by
  simp only [severity_levels, dictGet]
  split_ifs <;> simp

/-- The empty needle is a substring of every haystack. -/
theorem substrAux_nil (l : List Char) : substrAux [] l = true := by
  induction l with
  | nil => rfl
  | cons c rest ih => simp [substrAux, List.isPrefixOf, ih]

/-! ## Claims -/

/-- Claim C1: for every issue and severity string, the `priority_level`
returned by `check_severity` lies in {1, 2, 3, 4}, and `needs_escalation`
is true if and only if `priority_level >= 3`. -/
theorem check_severity_invariant (issue severity : String) :
    (check_severity issue severity).priority_level ∈ ([1, 2, 3, 4] : List Nat) ∧
    ((check_severity issue severity).needs_escalation = true ↔
      3 ≤ (check_severity issue severity).priority_level) := by
  constructor
  · have h := dictGet_severity_cases (strLower severity)
    rw [List.mem_cons, List.mem_cons, List.mem_cons, List.mem_cons]
    rw [check_severity_priority_def]
    rcases h with h | h | h | h <;> rw [h] <;> split_ifs <;> simp
  · rw [check_severity_escalation_def]
    simp

/-- Claim C2: `check_severity` takes its base priority from the fixed
table low=1, medium=2, high=3, critical=4, comparing the lowercased
severity label, with any label outside the table defaulting to 1; and for
every issue string `x`, `check_severity x "critical"` has priority 4. -/
theorem check_severity_base_table :
    (∀ x severity : String, hasCriticalKeyword x = false →
      (check_severity x severity).priority_level =
        dictGet severity_levels (strLower severity) 1) ∧
    (dictGet severity_levels "low" 1 = 1 ∧
     dictGet severity_levels "medium" 1 = 2 ∧
     dictGet severity_levels "high" 1 = 3 ∧
     dictGet severity_levels "critical" 1 = 4) ∧
    (∀ s : String, s ≠ "low" → s ≠ "medium" → s ≠ "high" → s ≠ "critical" →
      dictGet severity_levels s 1 = 1) ∧
    (∀ x : String, (check_severity x "critical").priority_level = 4) := by
  refine ⟨?_, by decide, ?_, ?_⟩
  · intro x severity h
    rw [check_severity_priority_def, h]
    simp
  · intro s h1 h2 h3 h4
    simp [severity_levels, dictGet, h1, h2, h3, h4]
  · intro x
    rw [check_severity_priority_def]
    have hc : dictGet severity_levels (strLower "critical") 1 = 4 := rfl
    rw [hc]
    split_ifs <;> simp

/-- Witness for C2: a concrete non-keyword issue with an unrecognized
severity label evaluates to the table default 1, and a recognized label
is looked up in the table. -/
theorem check_severity_base_table_witness :
    (check_severity "Hello" "MEDIUM").priority_level =
      dictGet severity_levels (strLower "MEDIUM") 1 ∧
    dictGet severity_levels "weird" 1 = 1 :=
  ⟨check_severity_base_table.1 "Hello" "MEDIUM" (by decide),
   check_severity_base_table.2.2.1 "weird" (by decide) (by decide)
     (by decide) (by decide)⟩

/-- Claim C3: with severity "low" the priority is 1, unless the
lowercased issue contains one of the critical keywords, in which case it
is exactly 3; in particular `check_severity "Database crash" "low"`
yields priority 3, escalation, and estimated time "6h". -/
theorem check_severity_low_override :
    (∀ issue : String, hasCriticalKeyword issue = false →
      (check_severity issue "low").priority_level = 1) ∧
    (∀ issue : String, hasCriticalKeyword issue = true →
      (check_severity issue "low").priority_level = 3) ∧
    check_severity "Database crash" "low" =
      ⟨3, true, "6h"⟩ := by
  have hlow : dictGet severity_levels (strLower "low") 1 = 1 := rfl
  refine ⟨?_, ?_, by decide⟩
  · intro issue h
    rw [check_severity_priority_def, h]
    simpa using hlow
  · intro issue h
    rw [check_severity_priority_def, h, hlow]
    simp

/-- Witness for C3: a keyword-free issue stays at priority 1 and an issue
containing "crash" is raised to priority 3. -/
theorem check_severity_low_override_witness :
    (check_severity "Hello world" "low").priority_level = 1 ∧
    (check_severity "Database crash" "low").priority_level = 3 :=
  ⟨check_severity_low_override.1 "Hello world" (by decide),
   check_severity_low_override.2.1 "Database crash" (by decide)⟩

/-- Claim C4: in every result of `check_severity`, `estimated_time` is
the decimal rendering of `priority_level * 2` followed by "h". -/
theorem check_severity_estimated_time (issue severity : String) :
    (check_severity issue severity).estimated_time =
      toString ((check_severity issue severity).priority_level * 2) ++ "h" := rfl

/-- Claim C5: whenever the product argument differs from the knowledge
base's product, `search_knowledge_base` returns exactly the single-entry
error mapping (an ordinary return value; the Lean model is total, so no
exception is possible). -/
theorem search_knowledge_base_product_mismatch
    (kbase : KnowledgeBase) (issue product : String)
    (h : product ≠ kbase.product) :
    search_knowledge_base kbase issue product =
      [("error", "Product not found in knowledge base")] := by
  simp [search_knowledge_base, h]

/-- Witness for C5: querying the sample knowledge base with a different
product name yields the error mapping. -/
theorem search_knowledge_base_product_mismatch_witness :
    search_knowledge_base kb "connect" "OtherProduct" =
      [("error", "Product not found in knowledge base")] :=
  search_knowledge_base_product_mismatch kb "connect" "OtherProduct" (by decide)

/-- Claim C6: when the product matches, a pair belongs to the result of
`search_knowledge_base` exactly when it is an entry of `known_issues`
whose lowercased key has the lowercased issue as a substring; and on the
sample knowledge base, issue "connect" returns exactly the connection
entry. -/
theorem search_knowledge_base_matches :
    (∀ (kbase : KnowledgeBase) (issue : String) (p : String × String),
      p ∈ search_knowledge_base kbase issue kbase.product ↔
        p ∈ kbase.known_issues ∧
          containsSubstr (strLower p.1) (strLower issue) = true) ∧
    search_knowledge_base kb "connect" "CloudDB" =
      [("Can't connect to database",
        "Check connection string and firewall rules")] := by
  refine ⟨?_, by decide⟩
  intro kbase issue p
  simp [search_knowledge_base, List.mem_filter]

/-- Claim C7: both core functions are total over all string inputs (they
always return a value in the model), and `check_severity` on empty
strings yields priority 1, no escalation, "2h". -/
theorem core_functions_total :
    (∀ (kbase : KnowledgeBase) (issue product : String),
      ∃ r : List (String × String),
        search_knowledge_base kbase issue product = r) ∧
    (∀ issue severity : String,
      ∃ r : CheckSeverityResult, check_severity issue severity = r) ∧
    check_severity "" "" = ⟨1, false, "2h"⟩ :=
  ⟨fun kbase issue product => ⟨search_knowledge_base kbase issue product, rfl⟩,
   fun issue severity => ⟨check_severity issue severity, rfl⟩,
   by decide⟩

/-- Claim C8 (refuted on the code): the default `timestamp` expression
`datetime.datetime.now()` is evaluated once when the class body runs, so
two queries constructed without a timestamp at different instants receive
the same stored default — not each its own creation time. With the module
loaded at instant 0, queries constructed at instants 5 and 9 carry equal
timestamps, and neither equals its construction instant. -/
theorem supportQuery_default_timestamp_shared :
    (SupportQuery.mkDefault ⟨0⟩ "Can't connect to database after restart"
        "high" "CloudDB" "user123" ⟨5⟩).timestamp =
      (SupportQuery.mkDefault ⟨0⟩ "Slow queries" "low" "CloudDB"
        "user456" ⟨9⟩).timestamp ∧
    (SupportQuery.mkDefault ⟨0⟩ "Can't connect to database after restart"
        "high" "CloudDB" "user123" ⟨5⟩).timestamp ≠ ⟨5⟩ := by
  decide

/-- Claim C9: the knowledge-base literal at module scope and the one
built inside `handle_support_query` agree in all three fields. -/
theorem kb_literals_equal :
    kb.product = handler_kb.product ∧
    kb.known_issues = handler_kb.known_issues ∧
    kb.solutions = handler_kb.solutions := by
  decide

/-- Claim C10: with the empty issue string and a matching product,
`search_knowledge_base` returns the entire `known_issues` mapping,
because the empty string is a substring of every key. -/
theorem search_knowledge_base_empty_issue (kbase : KnowledgeBase) :
    search_knowledge_base kbase "" kbase.product = kbase.known_issues := by
  unfold search_knowledge_base
  rw [if_neg (by simp), List.filter_eq_self]
  intro p _
  have hempty : (strLower "").toList = [] := rfl
  show substrAux (strLower "").toList (strLower p.1).toList = true
  rw [hempty]
  exact substrAux_nil _

end TechSupport
